import Mathlib

/-!
# Shallow embedding of the technical-analysis engine

Source: `src/app/pages/1_📈_Аналитика.py` (the dashboard's analysis page) and
`src/app/app.py` (ticker snapshot shape).  The embedding follows the Python
code, with these conventions:

* pandas float values are modelled as `ℚ` (exact arithmetic); a float `NaN`
  is modelled as `none : Option ℚ`.  pandas produces `NaN` for the warm-up
  prefix of a rolling window, for `diff()` at index 0, and for `0/0`.
* A dataframe is a `Frame`: the five OHLCV columns plus the derived
  indicator columns, each derived column wrapped in `Option` because the
  column is absent before `calculate_technical_indicators` assigns it.
  The Bollinger columns (`bb_middle`/`bb_upper`/`bb_lower`/`bb_width`) and
  the volume columns (`volume_sma`, `volume_ratio`) are omitted from the
  model: they are display-only (never read by the interpretation layer,
  the scoring engine, or any claim), and the Bollinger upper/lower bands
  involve an irrational square root (rolling standard deviation).
* Division is spelled out case by case where the Python code can divide by
  zero, mirroring IEEE semantics (`0/0 = NaN`, `positive/0 = +inf`); the
  comments on `rsiAt` and `stochAt` explain each case.
* Russian interpretation strings are kept verbatim because the scoring
  engine dispatches on substring membership in them.
-/

-- Batteries seals the rational-number operations; reopening them lets
-- concrete evaluations (witnesses, counterexamples) go through `decide`.
set_option allowUnsafeReducibility true
attribute [semireducible] Rat.ofScientific Rat.mul Rat.inv Rat.add Rat.sub

namespace App

/-- Substring test on character lists: `infixOf pat l` is true iff `pat`
occurs contiguously inside `l`.  Models Python's `pat in s`. -/
def infixOf (pat : List Char) : List Char → Bool
  | [] => pat.isEmpty
  | x :: xs => pat.isPrefixOf (x :: xs) || infixOf pat xs

/-- Python's `pat in s` on strings. -/
def strContains (s pat : String) : Bool := infixOf pat.data s.data

/-- `series.diff()`: first entry NaN, then pairwise differences. -/
def diff : List ℚ → List (Option ℚ)
  | [] => []
  | x :: rest => none :: (rest.zip (x :: rest)).map (fun p => some (p.1 - p.2))

/-- `delta.where(delta > 0, 0)`: keep positive entries, everything else
(including the leading NaN, for which the comparison is false) becomes 0. -/
def posPart : Option ℚ → ℚ
  | none => 0
  | some d => if d > 0 then d else 0

/-- `(-delta.where(delta < 0, 0))`: negated negative entries, else 0. -/
def negPart : Option ℚ → ℚ
  | none => 0
  | some d => if d < 0 then -d else 0

/-- Value of `series.rolling(window=w).mean()` at index `i` (series without
NaN): NaN during the warm-up, afterwards the mean of the last `w` entries. -/
def meanAt (w : ℕ) (xs : List ℚ) (i : ℕ) : Option ℚ :=
  if w ≤ i + 1 then some (((xs.drop (i + 1 - w)).take w).sum / w) else none

/-- `series.rolling(window=w).mean()` for a NaN-free series. -/
def rollingMean (w : ℕ) (xs : List ℚ) : List (Option ℚ) :=
  (List.range xs.length).map (meanAt w xs)

/-- Minimum of a window (`none` on the empty window). -/
def winMin : List ℚ → Option ℚ
  | [] => none
  | x :: xs => some (xs.foldl min x)

/-- Maximum of a window (`none` on the empty window). -/
def winMax : List ℚ → Option ℚ
  | [] => none
  | x :: xs => some (xs.foldl max x)

/-- Value of `series.rolling(window=w).min()` at index `i`. -/
def minAt (w : ℕ) (xs : List ℚ) (i : ℕ) : Option ℚ :=
  if w ≤ i + 1 then winMin ((xs.drop (i + 1 - w)).take w) else none

/-- Value of `series.rolling(window=w).max()` at index `i`. -/
def maxAt (w : ℕ) (xs : List ℚ) (i : ℕ) : Option ℚ :=
  if w ≤ i + 1 then winMax ((xs.drop (i + 1 - w)).take w) else none

/-- Value of `series.rolling(window=w).mean()` at index `i` for a series
that may contain NaN: any NaN inside the window makes the result NaN. -/
def meanOptAt (w : ℕ) (xs : List (Option ℚ)) (i : ℕ) : Option ℚ :=
  if w ≤ i + 1 then
    let win := (xs.drop (i + 1 - w)).take w
    if win.all Option.isSome then some ((win.map (fun o => o.getD 0)).sum / w)
    else none
  else none

/-- `series.rolling(window=w).mean()` for a series with possible NaN. -/
def rollingMeanOpt (w : ℕ) (xs : List (Option ℚ)) : List (Option ℚ) :=
  (List.range xs.length).map (meanOptAt w xs)

/-- Value of `series.ewm(span).mean()` at index `i`, pandas default
`adjust=True`: the (1-α)-weighted average of all entries so far, where
`α = 2/(span+1)`.  This is the formula in the pandas documentation. -/
def ewmAt (α : ℚ) (xs : List ℚ) (i : ℕ) : ℚ :=
  (∑ j ∈ Finset.range (i + 1), (1 - α) ^ (i - j) * xs.getD j 0) /
  (∑ j ∈ Finset.range (i + 1), (1 - α) ^ j)

/-- `series.ewm(span=span).mean()` for a NaN-free series. -/
def ewm (span : ℚ) (xs : List ℚ) : List ℚ :=
  (List.range xs.length).map (ewmAt (2 / (span + 1)) xs)

/-- One entry of the RSI column, `100 - 100/(1 + gain/loss)`, translated
from float semantics: with NaN in `gain` or `loss` (warm-up) the result is
NaN; with `loss = 0` the quotient is `NaN` (if `gain = 0`, so RSI is NaN) or
`+inf` (if `gain > 0` — `gain` is a mean of non-negatives — so
`100 - 100/(1+inf) = 100`); otherwise the ordinary rational value. -/
def rsiAt (gain loss : Option ℚ) : Option ℚ :=
  match gain, loss with
  | some g, some l =>
      if l = 0 then (if g = 0 then none else some 100)
      else some (100 - 100 / (1 + g / l))
  | _, _ => none

/-- One entry of the Stochastic %K column,
`100 * ((close - low_14) / (high_14 - low_14))`, translated from float
semantics: NaN window bounds (warm-up) give NaN; a zero range with
`close = low_14` gives `0/0 = NaN`.  A zero range with `close ≠ low_14`
would give `±inf`; it is unreachable for candles with
`low ≤ close ≤ high` (a zero range forces every candle of the window to a
single price) and is modelled as the undefined value as well. -/
def stochAt (close : ℚ) (lo hi : Option ℚ) : Option ℚ :=
  match lo, hi with
  | some lo, some hi =>
      if hi - lo = 0 then none
      else some (100 * ((close - lo) / (hi - lo)))
  | _, _ => none

/-- A dataframe of the analysis page: OHLCV columns as parsed by
`fetch_gateio_klines` plus the derived columns that
`calculate_technical_indicators` assigns (column absent = `none`). -/
structure Frame where
  timestamp : List ℕ
  «open» : List ℚ
  high : List ℚ
  low : List ℚ
  close : List ℚ
  volume : List ℚ
  rsi : Option (List (Option ℚ)) := none
  sma_20 : Option (List (Option ℚ)) := none
  ema_12 : Option (List ℚ) := none
  ema_26 : Option (List ℚ) := none
  macd : Option (List ℚ) := none
  macd_signal : Option (List ℚ) := none
  macd_histogram : Option (List ℚ) := none
  stoch_k : Option (List (Option ℚ)) := none
  stoch_d : Option (List (Option ℚ)) := none
  deriving Repr, DecidableEq

/-- The per-indicator entries of the dict built by
`generate_indicator_explanations`; only the `'interpretation'` strings are
modelled, because they are all the scoring engine reads (the `value` and
`explanation` entries are display-only). `none` models an absent key, as in
the empty dict `{}`. -/
structure Explanations where
  rsi : Option String := none
  macd : Option String := none
  stochastic : Option String := none
  trend : Option String := none
  deriving Repr, DecidableEq

/-- The empty explanations dict `{}`. -/
def emptyExplanations : Explanations := {}

/-- The dict returned by `analyze_news_sentiment`. -/
structure NewsSentiment where
  neutral : ℕ
  positive : ℕ
  negative : ℕ
  total : ℕ
  news_score : ℚ
  deriving Repr, DecidableEq

/-- A news item as far as `analyze_news_sentiment` reads it:
`item.get('sentiment', 'neutral')`, so the field may be absent. -/
structure NewsItem where
  sentiment : Option String
  deriving Repr, DecidableEq

/-- The ticker snapshot dict returned by `get_gateio_data` in
`src/app/app.py`. -/
structure CurrentData where
  symbol : String
  last : ℚ
  change_percentage : ℚ
  high_24h : ℚ
  low_24h : ℚ
  quote_volume : ℚ
  base_volume : ℚ
  available : Bool
  deriving Repr, DecidableEq

/-- The dict returned by `generate_trading_recommendation`. -/
structure Recommendation where
  recommendation : String
  score : ℚ
  signals : List String
  reasoning : String
  deriving Repr, DecidableEq

/-- Float comparison `a > b` where `a` may be NaN: NaN compares false. -/
def ogt (a : Option ℚ) (b : ℚ) : Bool :=
  match a with
  | some x => b < x
  | none => false

/-- Float comparison `a < b` where `a` may be NaN: NaN compares false. -/
def olt (a : Option ℚ) (b : ℚ) : Bool :=
  match a with
  | some x => x < b
  | none => false

/-- Float subtraction with NaN propagation. -/
def osub (a b : Option ℚ) : Option ℚ :=
  match a, b with
  | some x, some y => some (x - y)
  | _, _ => none

/-- `get_rsi_interpretation` (line 428): threshold rules on the latest RSI.
The argument may be NaN (e.g. RSI of a flat series), in which case every
comparison is false and the final `else` branch is taken. -/
def get_rsi_interpretation (rsi : Option ℚ) : String :=
  if ogt rsi 80 then
    "❌ СИЛЬНАЯ ПЕРЕКУПЛЕННОСТЬ - Высокая вероятность коррекции вниз. Цена значительно отклонилась от средних значений и может скоро развернуться."
  else if ogt rsi 70 then
    "⚠️ ПЕРЕКУПЛЕННОСТЬ - Возможна локальная коррекция. Рынок перегрет, будьте осторожны с новыми покупками."
  else if olt rsi 20 then
    "✅ СИЛЬНАЯ ПЕРЕПРОДАННОСТЬ - Высокая вероятность отскока вверх. Актив недооценен, возможен разворот."
  else if olt rsi 30 then
    "📈 ПЕРЕПРОДАННОСТЬ - Возможен технический отскок. Хорошая точка для рассмотрения покупки."
  else
    "⚪ НЕЙТРАЛЬНАЯ ЗОНА - Тренд сохраняется. Следуйте текущему направлению рынка."

/-- `get_macd_interpretation` (line 441). -/
def get_macd_interpretation (macd signal : Option ℚ) : String :=
  let d := osub macd signal
  if ogt d 0 && ogt macd 0 then
    "🟢 СИЛЬНЫЙ БЫЧИЙ СИГНАЛ - MACD выше сигнальной линии и выше нуля. Тренд восходящий, momentum положительный."
  else if ogt d 0 then
    "📈 БЫЧИЙ СИГНАЛ - MACD выше сигнальной линии. Начало восходящего движения."
  else if olt d 0 && olt macd 0 then
    "🔴 СИЛЬНЫЙ МЕДВЕЖИЙ СИГНАЛ - MACD ниже сигнальной линии и ниже нуля. Тренд нисходящий, momentum отрицательный."
  else
    "📉 МЕДВЕЖИЙ СИГНАЛ - MACD ниже сигнальной линии. Начало нисходящего движения."

/-- `get_stoch_interpretation` (line 453). -/
def get_stoch_interpretation (k d : Option ℚ) : String :=
  if ogt k 80 && ogt d 80 then
    "❌ СИЛЬНАЯ ПЕРЕКУПЛЕННОСТЬ - Оба показателя в зоне перекупленности. Высокий риск разворота вниз."
  else if ogt k 80 || ogt d 80 then
    "⚠️ ПЕРЕКУПЛЕННОСТЬ - Один из показателей в зоне перекупленности. Возможна коррекция."
  else if olt k 20 && olt d 20 then
    "✅ СИЛЬНАЯ ПЕРЕПРОДАННОСТЬ - Оба показателя в зоне перепроданности. Высокая вероятность отскока вверх."
  else if olt k 20 || olt d 20 then
    "📈 ПЕРЕПРОДАННОСТЬ - Один из показателей в зоне перепроданности. Возможен технический отскок."
  else
    "⚪ НЕЙТРАЛЬНАЯ ЗОНА - Тренд сохраняется. Следуйте основному направлению."

/-- `get_trend_interpretation` (line 466): compares the latest price with
SMA-20 via `deviation = ((price - sma_20) / sma_20) * 100`.  The zero-SMA
case is translated from float semantics: `price/0` is `+inf` (price > 0,
deviation lands in the `> 5` branch), `-inf` (price < 0, lands in the
`< -5` branch) or `NaN` (price = 0, all comparisons false).  Either input
being NaN likewise makes every comparison false. -/
def get_trend_interpretation (price sma_20 : Option ℚ) : String :=
  match price, sma_20 with
  | some p, some s =>
      if s = 0 then
        if 0 < p then
          "🟢 СИЛЬНЫЙ ВОСХОДЯЩИЙ ТРЕНД - Цена значительно выше скользящей средней. Тренд уверенно восходящий."
        else if p < 0 then
          "🔴 СИЛЬНЫЙ НИСХОДЯЩИЙ ТРЕНД - Цена значительно ниже скользящей средней. Тренд уверенно нисходящий."
        else
          "⚪ БОКОВОЙ ТРЕНД - Цена вблизи скользящей средней. Рынок в консолидации."
      else
        let deviation := (p - s) / s * 100
        if deviation > 5 then
          "🟢 СИЛЬНЫЙ ВОСХОДЯЩИЙ ТРЕНД - Цена значительно выше скользящей средней. Тренд уверенно восходящий."
        else if deviation > 2 then
          "📈 ВОСХОДЯЩИЙ ТРЕНД - Цена выше скользящей средней. Тренд восходящий."
        else if deviation < -5 then
          "🔴 СИЛЬНЫЙ НИСХОДЯЩИЙ ТРЕНД - Цена значительно ниже скользящей средней. Тренд уверенно нисходящий."
        else if deviation < -2 then
          "📉 НИСХОДЯЩИЙ ТРЕНД - Цена ниже скользящей средней. Тренд нисходящий."
        else
          "⚪ БОКОВОЙ ТРЕНД - Цена вблизи скользящей средней. Рынок в консолидации."
  | _, _ =>
      "⚪ БОКОВОЙ ТРЕНД - Цена вблизи скользящей средней. Рынок в консолидации."

/-- `calculate_fibonacci_levels` (line 480): levels from the full-series
high/low range; empty dict for a missing/empty frame or `high <= low`.
The dict is modelled as the ordered association list of its insertions. -/
def calculate_fibonacci_levels (df : Option Frame) : List (String × ℚ) :=
  match df with
  | none => []
  | some f =>
      if f.close.length = 0 then []
      else
        let high := winMax f.high
        let low := winMin f.low
        match high, low with
        | some high, some low =>
            if high ≤ low then []
            else
              let d := high - low
              [("0.0", high), ("0.236", high - 0.236 * d), ("0.382", high - 0.382 * d),
               ("0.5", high - 0.5 * d), ("0.618", high - 0.618 * d),
               ("0.786", high - 0.786 * d), ("1.0", low)]
        | _, _ => []

/-- `analyze_news_sentiment` (line 77): counts sentiment tags and scores
`(positive - negative) / total * 100`.  Mirrors the source quirk that the
membership test `sentiment in sentiment_count` also matches the key
`'total'`, so an item tagged `"total"` increments the total count. -/
def analyze_news_sentiment (news_items : List NewsItem) : NewsSentiment :=
  if news_items.isEmpty then ⟨0, 0, 0, 0, 0⟩
  else
    let sentOf : NewsItem → String := fun it => it.sentiment.getD "neutral"
    let neutral := news_items.countP (fun it => sentOf it == "neutral")
    let positive := news_items.countP (fun it => sentOf it == "positive")
    let negative := news_items.countP (fun it => sentOf it == "negative")
    let total := news_items.length + news_items.countP (fun it => sentOf it == "total")
    let total_score := ((positive : ℚ) - (negative : ℚ)) / (total : ℚ) * 100
    ⟨neutral, positive, negative, total, total_score⟩

/-- Contribution of one indicator block of `generate_trading_recommendation`
(lines 541-588).  Each of the four blocks has the same shape: if the
indicator's interpretation is present it contributes 1 to `max_score` and
to `score` 1 (favourable pattern found), 0 (adverse pattern found) or 0.5
(neither), appending the corresponding signal strings.
Result: (score increment, max_score increment, appended signals). -/
def indicatorContribution (info : Option String) (posPat negPat : String)
    (posSig negSig : String) (neutSigs : List String) : ℚ × ℚ × List String :=
  match info with
  | none => (0, 0, [])
  | some interp =>
      if strContains interp posPat then (1, 1, [posSig])
      else if strContains interp negPat then (0, 1, [negSig])
      else (1 / 2, 1, neutSigs)

/-- The RSI block (lines 542-552). -/
def rsiContribution (e : Explanations) : ℚ × ℚ × List String :=
  indicatorContribution e.rsi "ПЕРЕПРОДАННОСТЬ" "ПЕРЕКУПЛЕННОСТЬ"
    "🟢 RSI указывает на перепроданность - потенциал роста"
    "🔴 RSI указывает на перекупленность - риск снижения"
    ["⚪ RSI в нейтральной зоне"]

/-- The MACD block (lines 555-564); its neutral branch appends no signal. -/
def macdContribution (e : Explanations) : ℚ × ℚ × List String :=
  indicatorContribution e.macd "БЫЧИЙ" "МЕДВЕЖИЙ"
    "🟢 MACD дает бычий сигнал"
    "🔴 MACD дает медвежий сигнал"
    []

/-- The Stochastic block (lines 567-576). -/
def stochContribution (e : Explanations) : ℚ × ℚ × List String :=
  indicatorContribution e.stochastic "ПЕРЕПРОДАННОСТЬ" "ПЕРЕКУПЛЕННОСТЬ"
    "🟢 Stochastic указывает на перепроданность"
    "🔴 Stochastic указывает на перекупленность"
    []

/-- The trend block (lines 579-588). -/
def trendContribution (e : Explanations) : ℚ × ℚ × List String :=
  indicatorContribution e.trend "ВОСХОДЯЩИЙ" "НИСХОДЯЩИЙ"
    "🟢 Восходящий тренд подтвержден"
    "🔴 Нисходящий тренд подтвержден"
    []

/-- The news block (lines 590-600): contributes to `max_score`
unconditionally. -/
def newsContribution (news_score : ℚ) : ℚ × ℚ × List String :=
  if news_score > 10 then (1, 1, ["🟢 Положительный новостной фон"])
  else if news_score < -10 then (0, 1, ["🔴 Негативный новостной фон"])
  else (1 / 2, 1, ["⚪ Нейтральный новостной фон"])

/-- The accumulated `score` of `generate_trading_recommendation`. -/
def rec_score_sum (e : Explanations) (news_score : ℚ) : ℚ :=
  (rsiContribution e).1 + (macdContribution e).1 + (stochContribution e).1 +
    (trendContribution e).1 + (newsContribution news_score).1

/-- The accumulated `max_score` of `generate_trading_recommendation`. -/
def rec_max_score (e : Explanations) (news_score : ℚ) : ℚ :=
  (rsiContribution e).2.1 + (macdContribution e).2.1 + (stochContribution e).2.1 +
    (trendContribution e).2.1 + (newsContribution news_score).2.1

/-- The accumulated `signals` list of `generate_trading_recommendation`,
in source order: RSI, MACD, Stochastic, trend, news. -/
def rec_signals (e : Explanations) (news_score : ℚ) : List String :=
  (rsiContribution e).2.2 ++ (macdContribution e).2.2 ++ (stochContribution e).2.2 ++
    (trendContribution e).2.2 ++ (newsContribution news_score).2.2

/-- `generate_trading_recommendation` (line 535).  Reads only the
`interpretation` strings of `explanations` and `news_sentiment['news_score']`;
the `current_data` parameter is accepted but never used, exactly as in the
source. -/
def generate_trading_recommendation (explanations : Explanations)
    (current_data : CurrentData) (news_sentiment : NewsSentiment) : Recommendation :=
  let news_score := news_sentiment.news_score
  let score := rec_score_sum explanations news_score
  let max_score := rec_max_score explanations news_score
  let signals := rec_signals explanations news_score
  let total_score := if max_score > 0 then score / max_score * 100 else 50
  let total_score := total_score * 0.8 + news_score * 0.2
  let rec_reason : String × String :=
    if total_score ≥ 70 then
      ("🟢 СИГНАЛ К ПОКУПКЕ", "Большинство индикаторов показывают положительную динамику")
    else if total_score ≥ 55 then
      ("📈 УМЕРЕННО-ПОЛОЖИТЕЛЬНЫЙ", "Преобладают положительные сигналы")
    else if total_score ≥ 45 then
      ("⚪ НЕЙТРАЛЬНЫЙ", "Сигналы противоречивы")
    else if total_score ≥ 30 then
      ("📉 УМЕРЕННО-ОТРИЦАТЕЛЬНЫЙ", "Преобладают отрицательные сигналы")
    else
      ("🔴 СИГНАЛ К ПРОДАЖЕ", "Большинство индикаторов показывают отрицательную динамику")
  let reasoning :=
    if news_score > 20 then
      rec_reason.2 ++ ". Положительный новостной фон усиливает бычьи сигналы."
    else if news_score < -20 then
      rec_reason.2 ++ ". Негативный новостной фон усиливает медвежьи сигналы."
    else rec_reason.2
  { recommendation := rec_reason.1, score := total_score,
    signals := signals, reasoning := reasoning }

/-- Latest value of a possibly-absent column that may contain NaN:
`df[col].iloc[-1]` — NaN both when the column is missing/empty and when the
last entry is NaN. -/
def lastOpt (col : Option (List (Option ℚ))) : Option ℚ :=
  ((col.getD []).getLast?).join

/-- Latest value of a possibly-absent NaN-free column. -/
def lastVal (col : Option (List ℚ)) : Option ℚ :=
  (col.getD []).getLast?

/-- `generate_indicator_explanations` (line 307): extracts the latest value
of each indicator and attaches the interpretation strings.  Only the
`interpretation` entries are modelled (see `Explanations`). -/
def generate_indicator_explanations (f : Frame) : Explanations :=
  if f.close.length = 0 then {}
  else
    let current_rsi := lastOpt f.rsi
    let current_macd := lastVal f.macd
    let current_macd_signal := lastVal f.macd_signal
    let current_stoch_k := lastOpt f.stoch_k
    let current_stoch_d := lastOpt f.stoch_d
    let current_close := f.close.getLast?
    let current_sma_20 := lastOpt f.sma_20
    { rsi := some (get_rsi_interpretation current_rsi),
      macd := some (get_macd_interpretation current_macd current_macd_signal),
      stochastic := some (get_stoch_interpretation current_stoch_k current_stoch_d),
      trend := some (get_trend_interpretation current_close current_sma_20) }

/-- The RSI column (lines 264-269): `delta = close.diff()`,
`gain/loss = rolling(14).mean()` of the clipped deltas,
`rsi = 100 - 100/(1 + gain/loss)`. -/
def rsiColumn (close : List ℚ) : List (Option ℚ) :=
  let delta := diff close
  let gain := delta.map posPart
  let loss := delta.map negPart
  (List.range close.length).map (fun i => rsiAt (meanAt 14 gain i) (meanAt 14 loss i))

/-- The MACD column (line 277): `ema_12 - ema_26`, elementwise. -/
def macdColumn (close : List ℚ) : List ℚ :=
  List.zipWith (fun a b => a - b) (ewm 12 close) (ewm 26 close)

/-- The Stochastic %K column (lines 289-291):
`100 * ((close - low_14) / (high_14 - low_14))`. -/
def stochKColumn (close low high : List ℚ) : List (Option ℚ) :=
  (List.range close.length).map
    (fun i => stochAt (close.getD i 0) (minAt 14 low i) (maxAt 14 high i))

/-- The column assignments of `calculate_technical_indicators`
(lines 263-299) on a frame with at least 20 rows, plus the explanation
dict.  Row count is the length of the `close` column. -/
def computeIndicators (f : Frame) : Frame × Explanations :=
  let f' := { f with
    rsi := some (rsiColumn f.close),
    sma_20 := some (rollingMean 20 f.close),
    ema_12 := some (ewm 12 f.close),
    ema_26 := some (ewm 26 f.close),
    macd := some (macdColumn f.close),
    macd_signal := some (ewm 9 (macdColumn f.close)),
    macd_histogram := some (List.zipWith (fun a b => a - b) (macdColumn f.close)
      (ewm 9 (macdColumn f.close))),
    stoch_k := some (stochKColumn f.close f.low f.high),
    stoch_d := some (rollingMeanOpt 3 (stochKColumn f.close f.low f.high)) }
  (f', generate_indicator_explanations f')

/-- `calculate_technical_indicators` (line 258): for a missing frame or
fewer than 20 rows it returns the frame unchanged together with the empty
explanation dict; otherwise it assigns the indicator columns (the source
mutates and returns the same dataframe object) and builds the
explanations. -/
def calculate_technical_indicators (df : Option Frame) : Option Frame × Explanations :=
  match df with
  | none => (none, {})
  | some f =>
      if f.close.length < 20 then (some f, {})
      else
        let r := computeIndicators f
        (some r.1, r.2)

/-- The analysis flow of `main` (lines 676-685) after fetching: when the
ticker snapshot is available and the candle fetch returned a frame, the
page computes indicators, Fibonacci levels and a trading recommendation;
otherwise it renders an error and produces no analysis result. -/
def mainAnalysis (current_data : CurrentData) (historical_data : Option Frame)
    (sentiment_analysis : NewsSentiment) :
    Option (Option Frame × Explanations × List (String × ℚ) × Recommendation) :=
  if current_data.available then
    historical_data.map (fun hd =>
      let r := calculate_technical_indicators (some hd)
      let fib_levels := calculate_fibonacci_levels r.1
      let recommendation := generate_trading_recommendation r.2 current_data sentiment_analysis
      (r.1, r.2, fib_levels, recommendation))
  else none

/-! ## Concrete inputs used in witnesses and counterexamples -/

/-- A ticker snapshot with `available = True`. -/
def cdAvailable : CurrentData :=
  { symbol := "DOGE_USDT", last := 1, change_percentage := 0, high_24h := 1,
    low_24h := 1, quote_volume := 0, base_volume := 0, available := true }

/-- The sentiment record for an empty news list: `news_score = 0`. -/
def noNews : NewsSentiment := analyze_news_sentiment []

/-- The sentiment record for two positive news items: `news_score = 100`. -/
def allPositiveNews : NewsSentiment :=
  analyze_news_sentiment [⟨some "positive"⟩, ⟨some "positive"⟩]

/-- The sentiment record for two negative news items: `news_score = -100`. -/
def allNegativeNews : NewsSentiment :=
  analyze_news_sentiment [⟨some "negative"⟩, ⟨some "negative"⟩]

/-- Explanations in which all four indicators carry their favourable
(bullish / oversold-recovery) interpretation, built with the actual
interpretation functions: RSI 25 (oversold), MACD 1 over signal 1/2
(strong bullish), Stochastic 10/10 (strong oversold), price 110 over
SMA 100 (strong uptrend). -/
def allBullishExplanations : Explanations :=
  { rsi := some (get_rsi_interpretation (some 25)),
    macd := some (get_macd_interpretation (some 1) (some (1 / 2))),
    stochastic := some (get_stoch_interpretation (some 10) (some 10)),
    trend := some (get_trend_interpretation (some 110) (some 100)) }

/-- Explanations in which all four indicators carry their adverse
(bearish / overbought) interpretation: RSI 75 (overbought), MACD -1 under
signal -1/2 (strong bearish), Stochastic 90/90 (strong overbought),
price 90 under SMA 100 (strong downtrend). -/
def allAdverseExplanations : Explanations :=
  { rsi := some (get_rsi_interpretation (some 75)),
    macd := some (get_macd_interpretation (some (-1)) (some (-(1 / 2)))),
    stochastic := some (get_stoch_interpretation (some 90) (some 90)),
    trend := some (get_trend_interpretation (some 90) (some 100)) }

/-- A 20-row frame with constant close 5 (and flat OHLC throughout). -/
def constFrame20 : Frame :=
  { timestamp := List.range 20, «open» := List.replicate 20 5,
    high := List.replicate 20 5, low := List.replicate 20 5,
    close := List.replicate 20 5, volume := List.replicate 20 1 }

/-- A 10-row frame (too short for indicators). -/
def shortFrame10 : Frame :=
  { timestamp := List.range 10, «open» := List.replicate 10 2,
    high := List.replicate 10 3, low := List.replicate 10 1,
    close := List.replicate 10 2, volume := List.replicate 10 1 }

/-- A two-row frame whose highs peak at 100 and lows bottom at 50. -/
def fibFrame : Frame :=
  { timestamp := [0, 1], «open» := [60, 60], high := [100, 90],
    low := [50, 60], close := [60, 60], volume := [1, 1] }

/-! ## Helper lemmas -/

lemma getLast?_range_map {α : Type} (g : ℕ → α) {n : ℕ} (h : 0 < n) :
    ((List.range n).map g).getLast? = some (g (n - 1)) := by
  rw [List.getLast?_eq_getElem?]
  simp only [List.length_map, List.length_range, List.getElem?_map]
  rw [List.getElem?_range (by omega)]
  rfl

lemma getElem?_range_map {α : Type} (g : ℕ → α) {n i : ℕ} (h : i < n) :
    ((List.range n).map g)[i]? = some (g i) := by
  simp only [List.getElem?_map]
  rw [List.getElem?_range h]
  rfl

lemma zip_replicate_self (c : ℚ) (m : ℕ) :
    (List.replicate m c).zip (c :: List.replicate m c) = List.replicate m (c, c) := by
  induction m with
  | zero => rfl
  | succ m ih =>
      simp only [List.replicate_succ, List.zip_cons_cons] at ih ⊢
      rw [ih]

lemma diff_replicate (c : ℚ) (m : ℕ) :
    diff (List.replicate (m + 1) c) = none :: List.replicate m (some (0 : ℚ)) := by
  rw [List.replicate_succ]
  show none :: ((List.replicate m c).zip (c :: List.replicate m c)).map
      (fun p => some (p.1 - p.2)) = _
  rw [zip_replicate_self, List.map_replicate]
  norm_num

lemma map_posPart_replicate (m : ℕ) :
    (none :: List.replicate m (some (0 : ℚ))).map posPart = List.replicate (m + 1) (0 : ℚ) := by
  rw [List.map_cons, List.map_replicate, List.replicate_succ]
  norm_num [posPart]

lemma map_negPart_replicate (m : ℕ) :
    (none :: List.replicate m (some (0 : ℚ))).map negPart = List.replicate (m + 1) (0 : ℚ) := by
  rw [List.map_cons, List.map_replicate, List.replicate_succ]
  norm_num [negPart]

lemma meanAt_replicate_zero {n : ℕ} (h : 14 ≤ n) :
    meanAt 14 (List.replicate n (0 : ℚ)) (n - 1) = some 0 := by
  unfold meanAt
  rw [if_pos (by omega)]
  rw [List.drop_replicate, List.take_replicate, List.sum_replicate]
  simp

lemma getD_replicate (c d : ℚ) : ∀ (n j : ℕ), j < n → (List.replicate n c).getD j d = c
  | 0, j, h => absurd h (Nat.not_lt_zero j)
  | n + 1, 0, _ => rfl
  | n + 1, j + 1, h => getD_replicate c d n j (by omega)

lemma ewmAt_replicate {a : ℚ} (ha : 0 ≤ 1 - a) {n i : ℕ} (hi : i < n) (c : ℚ) :
    ewmAt a (List.replicate n c) i = c := by
  unfold ewmAt
  have hnum : ∑ j ∈ Finset.range (i + 1), (1 - a) ^ (i - j) * (List.replicate n c).getD j 0
      = (∑ j ∈ Finset.range (i + 1), (1 - a) ^ j) * c := by
    rw [← Finset.sum_range_reflect (fun j => (1 - a) ^ j) (i + 1), Finset.sum_mul]
    refine Finset.sum_congr rfl (fun j hj => ?_)
    rw [getD_replicate c 0 n j (by simp only [Finset.mem_range] at hj; omega)]
    rfl
  have hden : (0 : ℚ) < ∑ j ∈ Finset.range (i + 1), (1 - a) ^ j := by
    have h1 := Finset.single_le_sum (f := fun j => (1 - a) ^ j)
      (fun j _ => pow_nonneg ha j) (Finset.mem_range.mpr (Nat.succ_pos i))
    simp only [pow_zero] at h1
    linarith
  rw [hnum, mul_comm, mul_div_assoc, div_self (ne_of_gt hden), mul_one]

lemma zipWith_map_same {α : Type} (f : ℚ → ℚ → ℚ) (g h : α → ℚ) (l : List α) :
    List.zipWith f (l.map g) (l.map h) = l.map (fun x => f (g x) (h x)) := by
  induction l with
  | nil => rfl
  | cons x t ih => simp only [List.map_cons, List.zipWith_cons_cons, ih]

lemma le_foldl_max (l : List ℚ) : ∀ a : ℚ, a ≤ l.foldl max a := by
  induction l with
  | nil => intro a; exact le_refl a
  | cons x t ih => intro a; exact le_trans (le_max_left a x) (ih (max a x))

lemma mem_le_foldl_max (l : List ℚ) : ∀ (a x : ℚ), x ∈ l → x ≤ l.foldl max a := by
  induction l with
  | nil => intro a x h; cases h
  | cons y t ih =>
      intro a x h
      rcases List.mem_cons.mp h with rfl | h
      · exact le_trans (le_max_right a x) (le_foldl_max t (max a x))
      · exact ih (max a y) x h

lemma foldl_max_choice (l : List ℚ) : ∀ a : ℚ, l.foldl max a = a ∨ l.foldl max a ∈ l := by
  induction l with
  | nil => intro a; exact Or.inl rfl
  | cons y t ih =>
      intro a
      rcases ih (max a y) with h | h
      · rcases max_choice a y with h2 | h2
        · exact Or.inl (by rw [List.foldl_cons, h, h2])
        · refine Or.inr ?_
          rw [List.foldl_cons, h, h2]
          exact List.mem_cons_self y t
      · exact Or.inr (List.mem_cons_of_mem y h)

lemma foldl_min_le (l : List ℚ) : ∀ a : ℚ, l.foldl min a ≤ a := by
  induction l with
  | nil => intro a; exact le_refl a
  | cons x t ih => intro a; exact le_trans (ih (min a x)) (min_le_left a x)

lemma foldl_min_le_mem (l : List ℚ) : ∀ (a x : ℚ), x ∈ l → l.foldl min a ≤ x := by
  induction l with
  | nil => intro a x h; cases h
  | cons y t ih =>
      intro a x h
      rcases List.mem_cons.mp h with rfl | h
      · exact le_trans (foldl_min_le t (min a x)) (min_le_right a x)
      · exact ih (min a y) x h

lemma foldl_min_choice (l : List ℚ) : ∀ a : ℚ, l.foldl min a = a ∨ l.foldl min a ∈ l := by
  induction l with
  | nil => intro a; exact Or.inl rfl
  | cons y t ih =>
      intro a
      rcases ih (min a y) with h | h
      · rcases min_choice a y with h2 | h2
        · exact Or.inl (by rw [List.foldl_cons, h, h2])
        · refine Or.inr ?_
          rw [List.foldl_cons, h, h2]
          exact List.mem_cons_self y t
      · exact Or.inr (List.mem_cons_of_mem y h)

lemma foldl_min_replicate (a : ℚ) (m : ℕ) : (List.replicate m a).foldl min a = a := by
  induction m with
  | zero => rfl
  | succ m ih => simpa [List.replicate_succ, min_self] using ih

lemma foldl_max_replicate (a : ℚ) (m : ℕ) : (List.replicate m a).foldl max a = a := by
  induction m with
  | zero => rfl
  | succ m ih => simpa [List.replicate_succ, max_self] using ih

lemma winMin_replicate (a : ℚ) {m : ℕ} (h : 0 < m) :
    winMin (List.replicate m a) = some a := by
  obtain ⟨k, rfl⟩ : ∃ k, m = k + 1 := ⟨m - 1, by omega⟩
  rw [List.replicate_succ]
  show some ((List.replicate k a).foldl min a) = some a
  rw [foldl_min_replicate]

lemma winMax_replicate (a : ℚ) {m : ℕ} (h : 0 < m) :
    winMax (List.replicate m a) = some a := by
  obtain ⟨k, rfl⟩ : ∃ k, m = k + 1 := ⟨m - 1, by omega⟩
  rw [List.replicate_succ]
  show some ((List.replicate k a).foldl max a) = some a
  rw [foldl_max_replicate]

lemma rsiColumn_replicate {n : ℕ} (h : 20 ≤ n) (c : ℚ) :
    (rsiColumn (List.replicate n c)).getLast? = some none := by
  obtain ⟨m, rfl⟩ : ∃ m, n = m + 1 := ⟨n - 1, by omega⟩
  unfold rsiColumn
  simp only [List.length_replicate]
  rw [getLast?_range_map _ (by omega)]
  rw [diff_replicate, map_posPart_replicate, map_negPart_replicate]
  have h14 : (14 : ℕ) ≤ m + 1 := by omega
  have := meanAt_replicate_zero (n := m + 1) h14
  simp only [Nat.add_sub_cancel] at this ⊢
  rw [this]
  norm_num [rsiAt]

lemma macdColumn_replicate {n : ℕ} (h : 0 < n) (c : ℚ) :
    (macdColumn (List.replicate n c)).getLast? = some 0 := by
  unfold macdColumn ewm
  rw [zipWith_map_same]
  simp only [List.length_replicate]
  rw [getLast?_range_map _ h]
  rw [ewmAt_replicate (by norm_num) (by omega) c, ewmAt_replicate (by norm_num) (by omega) c]
  norm_num

lemma stochKColumn_getElem_flat {close low high : List ℚ} {v : ℚ}
    (hn : 14 ≤ close.length) (hlh : low.length = close.length)
    (hhh : high.length = close.length)
    (hc : close.drop (close.length - 14) = List.replicate 14 v)
    (hl : low.drop (close.length - 14) = List.replicate 14 v)
    (hh : high.drop (close.length - 14) = List.replicate 14 v) :
    (stochKColumn close low high)[close.length - 1]? = some none := by
  unfold stochKColumn
  rw [getElem?_range_map _ (by omega)]
  have hclose : close.getD (close.length - 1) 0 = v := by
    rw [List.getD_eq_getElem?_getD]
    have hidx : close.length - 1 = (close.length - 14) + 13 := by omega
    rw [hidx, ← List.getElem?_drop, hc]
    rfl
  have hlo : minAt 14 low (close.length - 1) = some v := by
    unfold minAt
    rw [if_pos (by omega)]
    have hidx : close.length - 1 + 1 - 14 = close.length - 14 := by omega
    rw [hidx, hl, List.take_replicate]
    exact winMin_replicate v (by omega)
  have hhi : maxAt 14 high (close.length - 1) = some v := by
    unfold maxAt
    rw [if_pos (by omega)]
    have hidx : close.length - 1 + 1 - 14 = close.length - 14 := by omega
    rw [hidx, hh, List.take_replicate]
    exact winMax_replicate v (by omega)
  rw [hclose, hlo, hhi]
  norm_num [stochAt]

lemma rollingMeanOpt_last_none {xs : List (Option ℚ)} (hn : 3 ≤ xs.length)
    (hlast : xs[xs.length - 1]? = some none) :
    (rollingMeanOpt 3 xs).getLast? = some none := by
  unfold rollingMeanOpt
  rw [getLast?_range_map _ (by omega)]
  unfold meanOptAt
  rw [if_pos (by omega)]
  have hidx : xs.length - 1 + 1 - 3 = xs.length - 3 := by omega
  rw [hidx]
  have hwin : ((xs.drop (xs.length - 3)).take 3)[2]? = some none := by
    rw [List.getElem?_take_of_lt (by norm_num), List.getElem?_drop]
    have hidx2 : xs.length - 3 + 2 = xs.length - 1 := by omega
    rw [hidx2, hlast]
  have hmem : (none : Option ℚ) ∈ (xs.drop (xs.length - 3)).take 3 :=
    List.getElem?_mem hwin
  rw [if_neg]
  intro hall
  have := List.all_eq_true.mp hall none hmem
  simp at this

lemma calc_indicators_of_length {f : Frame} (h : ¬ f.close.length < 20) :
    calculate_technical_indicators (some f) =
      (some (computeIndicators f).1, (computeIndicators f).2) := by
  show (if f.close.length < 20 then (some f, ({} : Explanations))
    else (some (computeIndicators f).1, (computeIndicators f).2)) = _
  rw [if_neg h]

lemma computeIndicators_rsi (f : Frame) :
    (computeIndicators f).1.rsi = some (rsiColumn f.close) := rfl

lemma computeIndicators_macd (f : Frame) :
    (computeIndicators f).1.macd = some (macdColumn f.close) := rfl

lemma computeIndicators_stoch_k (f : Frame) :
    (computeIndicators f).1.stoch_k = some (stochKColumn f.close f.low f.high) := rfl

lemma computeIndicators_stoch_d (f : Frame) :
    (computeIndicators f).1.stoch_d =
      some (rollingMeanOpt 3 (stochKColumn f.close f.low f.high)) := rfl

lemma computeIndicators_close (f : Frame) :
    (computeIndicators f).1.close = f.close := rfl

lemma computeIndicators_snd (f : Frame) :
    (computeIndicators f).2 = generate_indicator_explanations (computeIndicators f).1 := rfl

lemma stochK_length (close low high : List ℚ) :
    (stochKColumn close low high).length = close.length := by
  unfold stochKColumn
  simp

lemma indicatorContribution_bounds (info : Option String) (p q s t : String)
    (ns : List String) :
    0 ≤ (indicatorContribution info p q s t ns).1 ∧
      (indicatorContribution info p q s t ns).1 ≤ (indicatorContribution info p q s t ns).2.1 ∧
      0 ≤ (indicatorContribution info p q s t ns).2.1 ∧
      (indicatorContribution info p q s t ns).2.1 ≤ 1 := by
  cases info with
  | none => simp [indicatorContribution]
  | some i =>
      simp only [indicatorContribution]
      split_ifs <;> norm_num

lemma rsiContribution_bounds (e : Explanations) :
    0 ≤ (rsiContribution e).1 ∧ (rsiContribution e).1 ≤ (rsiContribution e).2.1 ∧
      0 ≤ (rsiContribution e).2.1 ∧ (rsiContribution e).2.1 ≤ 1 :=
  indicatorContribution_bounds _ _ _ _ _ _

lemma macdContribution_bounds (e : Explanations) :
    0 ≤ (macdContribution e).1 ∧ (macdContribution e).1 ≤ (macdContribution e).2.1 ∧
      0 ≤ (macdContribution e).2.1 ∧ (macdContribution e).2.1 ≤ 1 :=
  indicatorContribution_bounds _ _ _ _ _ _

lemma stochContribution_bounds (e : Explanations) :
    0 ≤ (stochContribution e).1 ∧ (stochContribution e).1 ≤ (stochContribution e).2.1 ∧
      0 ≤ (stochContribution e).2.1 ∧ (stochContribution e).2.1 ≤ 1 :=
  indicatorContribution_bounds _ _ _ _ _ _

lemma trendContribution_bounds (e : Explanations) :
    0 ≤ (trendContribution e).1 ∧ (trendContribution e).1 ≤ (trendContribution e).2.1 ∧
      0 ≤ (trendContribution e).2.1 ∧ (trendContribution e).2.1 ≤ 1 :=
  indicatorContribution_bounds _ _ _ _ _ _

lemma newsContribution_bounds (q : ℚ) :
    0 ≤ (newsContribution q).1 ∧ (newsContribution q).1 ≤ 1 ∧
      (newsContribution q).2.1 = 1 := by
  unfold newsContribution
  split_ifs <;> norm_num

lemma rec_max_score_ge_one (e : Explanations) (q : ℚ) : 1 ≤ rec_max_score e q := by
  unfold rec_max_score
  have h1 := (rsiContribution_bounds e).2.2.1
  have h2 := (macdContribution_bounds e).2.2.1
  have h3 := (stochContribution_bounds e).2.2.1
  have h4 := (trendContribution_bounds e).2.2.1
  have h5 := (newsContribution_bounds q).2.2
  linarith

lemma rec_score_sum_nonneg (e : Explanations) (q : ℚ) : 0 ≤ rec_score_sum e q := by
  unfold rec_score_sum
  have h1 := (rsiContribution_bounds e).1
  have h2 := (macdContribution_bounds e).1
  have h3 := (stochContribution_bounds e).1
  have h4 := (trendContribution_bounds e).1
  have h5 := (newsContribution_bounds q).1
  linarith

lemma rec_score_sum_le_max (e : Explanations) (q : ℚ) :
    rec_score_sum e q ≤ rec_max_score e q := by
  unfold rec_score_sum rec_max_score
  have h1 := (rsiContribution_bounds e).2.1
  have h2 := (macdContribution_bounds e).2.1
  have h3 := (stochContribution_bounds e).2.1
  have h4 := (trendContribution_bounds e).2.1
  have h5 := (newsContribution_bounds q).2.1
  have h6 := (newsContribution_bounds q).2.2
  linarith

lemma gtr_news_only (e : Explanations) (cd cd' : CurrentData) (ns ns' : NewsSentiment)
    (h : ns.news_score = ns'.news_score) :
    generate_trading_recommendation e cd ns = generate_trading_recommendation e cd' ns' := by
  unfold generate_trading_recommendation
  rw [h]

lemma gtr_score_formula (e : Explanations) (cd : CurrentData) (ns : NewsSentiment) :
    (generate_trading_recommendation e cd ns).score =
      rec_score_sum e ns.news_score / rec_max_score e ns.news_score * 100 * 0.8 +
        ns.news_score * 0.2 := by
  have hpos : rec_max_score e ns.news_score > 0 :=
    lt_of_lt_of_le one_pos (rec_max_score_ge_one e ns.news_score)
  show (if rec_max_score e ns.news_score > 0 then
      rec_score_sum e ns.news_score / rec_max_score e ns.news_score * 100 else 50) * 0.8 +
      ns.news_score * 0.2 = _
  rw [if_pos hpos]

lemma news_score_bounds (items : List NewsItem) :
    -100 ≤ (analyze_news_sentiment items).news_score ∧
      (analyze_news_sentiment items).news_score ≤ 100 := by
  unfold analyze_news_sentiment
  split_ifs with h
  · norm_num
  · have hne : items ≠ [] := fun hh => h (by simp [hh])
    have hlen : 1 ≤ items.length := List.length_pos.mpr hne
    simp only []
    set P := items.countP (fun it => (it.sentiment.getD "neutral") == "positive") with hP
    set N := items.countP (fun it => (it.sentiment.getD "neutral") == "negative") with hN
    set T := items.length + items.countP (fun it => (it.sentiment.getD "neutral") == "total")
      with hT
    have hp : P ≤ items.length := List.countP_le_length _
    have hn : N ≤ items.length := List.countP_le_length _
    have hlt : items.length ≤ T := Nat.le_add_right _ _
    have hTpos : (0 : ℚ) < (T : ℚ) := by
      have : 1 ≤ T := le_trans hlen hlt
      exact_mod_cast Nat.lt_of_lt_of_le Nat.zero_lt_one this
    have hPQ : (P : ℚ) ≤ (T : ℚ) := by exact_mod_cast le_trans hp hlt
    have hNQ : (N : ℚ) ≤ (T : ℚ) := by exact_mod_cast le_trans hn hlt
    have hP0 : (0 : ℚ) ≤ (P : ℚ) := by positivity
    have hN0 : (0 : ℚ) ≤ (N : ℚ) := by positivity
    constructor
    · rw [div_mul_eq_mul_div, le_div_iff₀ hTpos]
      linarith
    · rw [div_mul_eq_mul_div, div_le_iff₀ hTpos]
      linarith

/-! ## Claim theorems -/

/-- Claim C1, counterexample: on the empty verdict set (with the engine's
own sentiment record for an empty news list, whose score is 0) the
recommendation has score 40 and the moderately-negative label — not
score 50 and the NEUTRAL label as the claim states. -/
theorem scoring_empty_set_not_neutral :
    (generate_trading_recommendation emptyExplanations cdAvailable noNews).score = 40 ∧
      (generate_trading_recommendation emptyExplanations cdAvailable noNews).recommendation ≠
        "⚪ НЕЙТРАЛЬНЫЙ" := by
  refine ⟨?_, ?_⟩ <;> decide

/-- Claim C1, amended: with a neutral news score (0), a verdict set with all
four indicators favourable yields score 72 (not 100) and the strong-buy
label; all four adverse yields score 8 (not 0) and the strong-sell label;
the empty verdict set yields score 40 (not 50) and the moderately-negative
label (not NEUTRAL).  The deviation comes from the unconditional news
contribution and the final `total_score*0.8 + news_score*0.2` adjustment;
no input errors (the engine is a total function). -/
theorem scoring_fixed_verdict_outcomes (cd : CurrentData) (ns : NewsSentiment)
    (h : ns.news_score = 0) :
    ((generate_trading_recommendation allBullishExplanations cd ns).score = 72 ∧
      (generate_trading_recommendation allBullishExplanations cd ns).recommendation =
        "🟢 СИГНАЛ К ПОКУПКЕ") ∧
    ((generate_trading_recommendation allAdverseExplanations cd ns).score = 8 ∧
      (generate_trading_recommendation allAdverseExplanations cd ns).recommendation =
        "🔴 СИГНАЛ К ПРОДАЖЕ") ∧
    ((generate_trading_recommendation emptyExplanations cd ns).score = 40 ∧
      (generate_trading_recommendation emptyExplanations cd ns).recommendation =
        "📉 УМЕРЕННО-ОТРИЦАТЕЛЬНЫЙ") := by
  have hre : ∀ e, generate_trading_recommendation e cd ns =
      generate_trading_recommendation e cdAvailable noNews := fun e =>
    gtr_news_only e cd cdAvailable ns noNews (by rw [h]; rfl)
  rw [hre, hre, hre]
  refine ⟨⟨?_, ?_⟩, ⟨?_, ?_⟩, ⟨?_, ?_⟩⟩ <;> decide

/-- Witness for C1's amended theorem: instantiated at the engine's
empty-news sentiment record. -/
theorem scoring_fixed_verdict_outcomes_witness :
    noNews.news_score = 0 ∧
      (generate_trading_recommendation allBullishExplanations cdAvailable noNews).score = 72 :=
  ⟨by decide, (scoring_fixed_verdict_outcomes cdAvailable noNews (by decide)).1.1⟩

/-- Claim C2, counterexample: with the identical (empty) verdict set, an
all-positive news list yields a different score and a different signal list
than an empty news list — the output is not independent of the
news-sentiment input. -/
theorem recommendation_not_independent_of_news :
    (generate_trading_recommendation emptyExplanations cdAvailable noNews).score ≠
      (generate_trading_recommendation emptyExplanations cdAvailable allPositiveNews).score ∧
    (generate_trading_recommendation emptyExplanations cdAvailable noNews).signals ≠
      (generate_trading_recommendation emptyExplanations cdAvailable allPositiveNews).signals := by
  refine ⟨?_, ?_⟩ <;> decide

/-- Claim C2, amended: the engine is a pure function of the verdict set and
the news-sentiment score: two invocations given the same per-indicator
verdicts and the same `news_score` produce identical results, regardless of
the ticker snapshot (which is accepted but unused) and of every other
news-sentiment field. -/
theorem recommendation_pure_in_verdicts_and_news_score (e : Explanations)
    (cd cd' : CurrentData) (ns ns' : NewsSentiment)
    (h : ns.news_score = ns'.news_score) :
    generate_trading_recommendation e cd ns = generate_trading_recommendation e cd' ns' :=
  gtr_news_only e cd cd' ns ns' h

/-- Witness for C2's amended theorem: two sentiment records agreeing only in
`news_score`, and two different ticker snapshots. -/
theorem recommendation_pure_in_verdicts_and_news_score_witness :
    noNews.news_score = (⟨9, 9, 9, 27, 0⟩ : NewsSentiment).news_score ∧
      generate_trading_recommendation emptyExplanations cdAvailable noNews =
        generate_trading_recommendation emptyExplanations
          ⟨"LINK_USDT", 2, 3, 4, 5, 6, 7, false⟩ ⟨9, 9, 9, 27, 0⟩ :=
  ⟨by decide,
    recommendation_pure_in_verdicts_and_news_score emptyExplanations cdAvailable
      ⟨"LINK_USDT", 2, 3, 4, 5, 6, 7, false⟩ noNews ⟨9, 9, 9, 27, 0⟩ (by decide)⟩

/-- Claim C3, counterexample: with the empty verdict set and an all-negative
news list (news score -100) the recommendation score is -20, outside the
claimed interval [0, 100]. -/
theorem recommendation_score_below_zero :
    (generate_trading_recommendation emptyExplanations cdAvailable allNegativeNews).score =
      -20 ∧
    ¬ (0 ≤ (generate_trading_recommendation emptyExplanations cdAvailable
        allNegativeNews).score) := by
  refine ⟨?_, ?_⟩ <;> decide

/-- Claim C3, amended: for every verdict set, ticker snapshot and news list,
the recommendation score lies in [-20, 100] (the lower end is reached; the
news adjustment `*0.8 + news_score*0.2` can push the score below 0). -/
theorem recommendation_score_bounds (e : Explanations) (cd : CurrentData)
    (items : List NewsItem) :
    -20 ≤ (generate_trading_recommendation e cd (analyze_news_sentiment items)).score ∧
      (generate_trading_recommendation e cd (analyze_news_sentiment items)).score ≤ 100 := by
  have hb := news_score_bounds items
  rw [gtr_score_formula]
  set q := (analyze_news_sentiment items).news_score
  have h1 := rec_max_score_ge_one e q
  have h0 := rec_score_sum_nonneg e q
  have h2 := rec_score_sum_le_max e q
  have hpos : (0 : ℚ) < rec_max_score e q := by linarith
  have hdiv1 : rec_score_sum e q / rec_max_score e q ≤ 1 := by
    rw [div_le_one hpos]; exact h2
  have hdiv0 : 0 ≤ rec_score_sum e q / rec_max_score e q := by positivity
  constructor <;> nlinarith [hb.1, hb.2]

/-- Claim C10 (confirmed): the news branch contributes to `max_score`
unconditionally, so `max_score ≥ 1` for every input; consequently the
`score/max_score` division is always well-defined and the fallback branch
assigning `total_score = 50` when `max_score = 0` is unreachable — the
score always equals the division formula. -/
theorem max_score_at_least_one (e : Explanations) (cd : CurrentData) (ns : NewsSentiment) :
    1 ≤ rec_max_score e ns.news_score ∧
      (generate_trading_recommendation e cd ns).score =
        rec_score_sum e ns.news_score / rec_max_score e ns.news_score * 100 * 0.8 +
          ns.news_score * 0.2 :=
  ⟨rec_max_score_ge_one e ns.news_score, gtr_score_formula e cd ns⟩

lemma ogt_some (x b : ℚ) : (ogt (some x) b = true) ↔ b < x := by simp [ogt]

lemma olt_some (x b : ℚ) : (olt (some x) b = true) ↔ x < b := by simp [olt]

/-- Claim C9 (confirmed): the RSI interpretation rule uses strict
comparisons exactly as the table states (`>80`, `>70`, `<20`, `<30`, else
neutral): the five regions map to the five verdict strings, and each of the
boundary values 70, 80, 30, 20 falls on the non-strict side of its
threshold (70 and 30 are neutral, 80 is plain overbought, 20 is plain
oversold). -/
theorem rsi_interpretation_strict_thresholds :
    (∀ r : ℚ,
      (80 < r → get_rsi_interpretation (some r) =
        "❌ СИЛЬНАЯ ПЕРЕКУПЛЕННОСТЬ - Высокая вероятность коррекции вниз. Цена значительно отклонилась от средних значений и может скоро развернуться.") ∧
      (70 < r → r ≤ 80 → get_rsi_interpretation (some r) =
        "⚠️ ПЕРЕКУПЛЕННОСТЬ - Возможна локальная коррекция. Рынок перегрет, будьте осторожны с новыми покупками.") ∧
      (r < 20 → get_rsi_interpretation (some r) =
        "✅ СИЛЬНАЯ ПЕРЕПРОДАННОСТЬ - Высокая вероятность отскока вверх. Актив недооценен, возможен разворот.") ∧
      (20 ≤ r → r < 30 → get_rsi_interpretation (some r) =
        "📈 ПЕРЕПРОДАННОСТЬ - Возможен технический отскок. Хорошая точка для рассмотрения покупки.") ∧
      (30 ≤ r → r ≤ 70 → get_rsi_interpretation (some r) =
        "⚪ НЕЙТРАЛЬНАЯ ЗОНА - Тренд сохраняется. Следуйте текущему направлению рынка.")) ∧
    get_rsi_interpretation (some 70) =
      "⚪ НЕЙТРАЛЬНАЯ ЗОНА - Тренд сохраняется. Следуйте текущему направлению рынка." ∧
    get_rsi_interpretation (some 80) =
      "⚠️ ПЕРЕКУПЛЕННОСТЬ - Возможна локальная коррекция. Рынок перегрет, будьте осторожны с новыми покупками." ∧
    get_rsi_interpretation (some 30) =
      "⚪ НЕЙТРАЛЬНАЯ ЗОНА - Тренд сохраняется. Следуйте текущему направлению рынка." ∧
    get_rsi_interpretation (some 20) =
      "📈 ПЕРЕПРОДАННОСТЬ - Возможен технический отскок. Хорошая точка для рассмотрения покупки." := by
  refine ⟨fun r => ⟨?_, ?_, ?_, ?_, ?_⟩, by decide, by decide, by decide, by decide⟩
  · intro h
    unfold get_rsi_interpretation
    rw [if_pos ((ogt_some r 80).mpr h)]
  · intro h1 h2
    unfold get_rsi_interpretation
    rw [if_neg (fun hh => absurd ((ogt_some r 80).mp hh) (by linarith)),
      if_pos ((ogt_some r 70).mpr h1)]
  · intro h
    unfold get_rsi_interpretation
    rw [if_neg (fun hh => absurd ((ogt_some r 80).mp hh) (by linarith)),
      if_neg (fun hh => absurd ((ogt_some r 70).mp hh) (by linarith)),
      if_pos ((olt_some r 20).mpr h)]
  · intro h1 h2
    unfold get_rsi_interpretation
    rw [if_neg (fun hh => absurd ((ogt_some r 80).mp hh) (by linarith)),
      if_neg (fun hh => absurd ((ogt_some r 70).mp hh) (by linarith)),
      if_neg (fun hh => absurd ((olt_some r 20).mp hh) (by linarith)),
      if_pos ((olt_some r 30).mpr h2)]
  · intro h1 h2
    unfold get_rsi_interpretation
    rw [if_neg (fun hh => absurd ((ogt_some r 80).mp hh) (by linarith)),
      if_neg (fun hh => absurd ((ogt_some r 70).mp hh) (by linarith)),
      if_neg (fun hh => absurd ((olt_some r 20).mp hh) (by linarith)),
      if_neg (fun hh => absurd ((olt_some r 30).mp hh) (by linarith))]

/-- Witness for C9: RSI 90 is in the `>80` region and maps to the
strong-overbought verdict. -/
theorem rsi_interpretation_strict_thresholds_witness :
    (80 : ℚ) < 90 ∧ get_rsi_interpretation (some 90) =
      "❌ СИЛЬНАЯ ПЕРЕКУПЛЕННОСТЬ - Высокая вероятность коррекции вниз. Цена значительно отклонилась от средних значений и может скоро развернуться." :=
  ⟨by norm_num, (rsi_interpretation_strict_thresholds.1 90).1 (by norm_num)⟩

lemma winMax_eq_of_bounds {l : List ℚ} {hi : ℚ} (hmem : hi ∈ l)
    (hub : ∀ x ∈ l, x ≤ hi) : winMax l = some hi := by
  obtain ⟨a, t, rfl⟩ := List.exists_cons_of_ne_nil (List.ne_nil_of_mem hmem)
  show some (t.foldl max a) = some hi
  congr 1
  refine le_antisymm ?_ ?_
  · rcases foldl_max_choice t a with h | h
    · rw [h]; exact hub a (List.mem_cons_self a t)
    · exact hub _ (List.mem_cons_of_mem a h)
  · rcases List.mem_cons.mp hmem with rfl | h
    · exact le_foldl_max t hi
    · exact mem_le_foldl_max t a hi h

lemma winMin_eq_of_bounds {l : List ℚ} {lo : ℚ} (hmem : lo ∈ l)
    (hlb : ∀ x ∈ l, lo ≤ x) : winMin l = some lo := by
  obtain ⟨a, t, rfl⟩ := List.exists_cons_of_ne_nil (List.ne_nil_of_mem hmem)
  show some (t.foldl min a) = some lo
  congr 1
  refine le_antisymm ?_ ?_
  · rcases List.mem_cons.mp hmem with rfl | h
    · exact foldl_min_le t lo
    · exact foldl_min_le_mem t a lo h
  · rcases foldl_min_choice t a with h | h
    · rw [h]; exact hlb a (List.mem_cons_self a t)
    · exact hlb _ (List.mem_cons_of_mem a h)

lemma fib_eq (f : Frame) (hn : f.close.length ≠ 0) {hi lo : ℚ}
    (hmax : winMax f.high = some hi) (hmin : winMin f.low = some lo) :
    calculate_fibonacci_levels (some f) =
      if hi ≤ lo then []
      else
        [("0.0", hi), ("0.236", hi - 0.236 * (hi - lo)), ("0.382", hi - 0.382 * (hi - lo)),
         ("0.5", hi - 0.5 * (hi - lo)), ("0.618", hi - 0.618 * (hi - lo)),
         ("0.786", hi - 0.786 * (hi - lo)), ("1.0", lo)] := by
  show (if f.close.length = 0 then [] else
      match winMax f.high, winMin f.low with
      | some high, some low =>
          if high ≤ low then []
          else
            let d := high - low
            [("0.0", high), ("0.236", high - 0.236 * d), ("0.382", high - 0.382 * d),
             ("0.5", high - 0.5 * d), ("0.618", high - 0.618 * d),
             ("0.786", high - 0.786 * d), ("1.0", low)]
      | _, _ => []) = _
  rw [if_neg hn, hmax, hmin]

/-- Claim C8 (confirmed): with `hi` the maximum of the highs and `lo` the
minimum of the lows, the Fibonacci result maps the ratios
0, 0.236, 0.382, 0.5, 0.618, 0.786, 1.0 exactly to
`hi - ratio*(hi - lo)` when `lo < hi`, and is the empty mapping when
`hi ≤ lo`. -/
theorem fibonacci_levels_spec (f : Frame) (hi lo : ℚ)
    (hhi : hi ∈ f.high ∧ ∀ x ∈ f.high, x ≤ hi)
    (hlo : lo ∈ f.low ∧ ∀ x ∈ f.low, lo ≤ x)
    (hn : 0 < f.close.length) :
    (lo < hi → calculate_fibonacci_levels (some f) =
      [("0.0", hi - 0 * (hi - lo)), ("0.236", hi - 0.236 * (hi - lo)),
       ("0.382", hi - 0.382 * (hi - lo)), ("0.5", hi - 0.5 * (hi - lo)),
       ("0.618", hi - 0.618 * (hi - lo)), ("0.786", hi - 0.786 * (hi - lo)),
       ("1.0", hi - 1 * (hi - lo))]) ∧
    (hi ≤ lo → calculate_fibonacci_levels (some f) = []) := by
  have heq := fib_eq f (by omega) (winMax_eq_of_bounds hhi.1 hhi.2)
    (winMin_eq_of_bounds hlo.1 hlo.2)
  constructor
  · intro hlt
    rw [heq, if_neg (not_le.mpr hlt)]
    norm_num
  · intro hle
    rw [heq, if_pos hle]

/-- Witness for C8: a concrete frame with high 100 and low 50 yields the
documented levels 100, 88.2, 80.9, 75, 69.1, 60.7, 50 exactly. -/
theorem fibonacci_levels_spec_witness :
    ((100 : ℚ) ∈ fibFrame.high ∧ ∀ x ∈ fibFrame.high, x ≤ 100) ∧
    ((50 : ℚ) ∈ fibFrame.low ∧ ∀ x ∈ fibFrame.low, 50 ≤ x) ∧
    0 < fibFrame.close.length ∧ (50 : ℚ) < 100 ∧
    calculate_fibonacci_levels (some fibFrame) =
      [("0.0", 100), ("0.236", 88.2), ("0.382", 80.9), ("0.5", 75),
       ("0.618", 69.1), ("0.786", 60.7), ("1.0", 50)] := by
  refine ⟨⟨by decide, by decide⟩, ⟨by decide, by decide⟩, by decide, by norm_num, ?_⟩
  have h := (fibonacci_levels_spec fibFrame 100 50 ⟨by decide, by decide⟩
    ⟨by decide, by decide⟩ (by decide)).1 (by norm_num)
  rw [h]
  norm_num

lemma calc_indicators_short {f : Frame} (h : f.close.length < 20) :
    calculate_technical_indicators (some f) = (some f, emptyExplanations) := by
  show (if f.close.length < 20 then (some f, ({} : Explanations))
    else (some (computeIndicators f).1, (computeIndicators f).2)) = _
  rw [if_pos h]
  rfl

/-- Claim C6, counterexample: a 10-row candle input with an available ticker
does produce an analysis result — including a Recommendation (score 40 with
neutral news) — rather than failing with no result as the claim states. -/
theorem short_input_analysis_not_none :
    mainAnalysis cdAvailable (some shortFrame10) noNews ≠ none ∧
      (mainAnalysis cdAvailable (some shortFrame10) noNews).map
        (fun r => r.2.2.2.score) = some 40 := by
  refine ⟨?_, ?_⟩ <;> decide

/-- Claim C6, amended: for a frame with fewer than 20 rows (and an available
ticker) the indicator stage indeed produces no indicator values — it
returns the frame unchanged with the empty explanation dict — but the page
does not stop there: it still produces Fibonacci levels and a full
Recommendation from the empty verdict set.  Only a missing frame
(fetch failure) or an unavailable ticker suppresses the result; no
`DataUnavailable` error exists in the code. -/
theorem short_input_still_produces_recommendation (f : Frame) (cd : CurrentData)
    (ns : NewsSentiment) (hlen : f.close.length < 20) (hav : cd.available = true) :
    mainAnalysis cd (some f) ns =
      some (some f, emptyExplanations, calculate_fibonacci_levels (some f),
        generate_trading_recommendation emptyExplanations cd ns) := by
  unfold mainAnalysis
  rw [if_pos hav, Option.map_some', calc_indicators_short hlen]

/-- Witness for C6's amended theorem: the concrete 10-row frame and an
available ticker. -/
theorem short_input_still_produces_recommendation_witness :
    shortFrame10.close.length < 20 ∧ cdAvailable.available = true ∧
      mainAnalysis cdAvailable (some shortFrame10) noNews =
        some (some shortFrame10, emptyExplanations,
          calculate_fibonacci_levels (some shortFrame10),
          generate_trading_recommendation emptyExplanations cdAvailable noNews) :=
  ⟨by decide, by decide,
    short_input_still_produces_recommendation shortFrame10 cdAvailable noNews
      (by decide) (by decide)⟩

/-- Claim C7, counterexample: the indicator stage does not leave the
caller's dataframe unchanged — on a 20-row input the returned (same,
mutated) frame differs from the input (the derived columns have been
assigned into it). -/
theorem indicator_stage_not_readonly :
    (calculate_technical_indicators (some constFrame20)).1 ≠ some constFrame20 := by
  intro h
  rw [calc_indicators_of_length (by decide)] at h
  have h2 : (computeIndicators constFrame20).1 = constFrame20 := Option.some.inj h
  have h3 := congrArg Frame.rsi h2
  rw [computeIndicators_rsi] at h3
  exact Option.noConfusion h3

/-- Claim C7, amended: the indicator stage preserves the OHLCV data and the
row set of the input (same timestamps, opens, highs, lows, closes,
volumes), but it writes the derived indicator columns into the very frame
it returns (the source mutates the input dataframe in place and returns
it), rather than into a separate result. -/
theorem indicator_columns_written_into_input (f : Frame) (h : 20 ≤ f.close.length) :
    (calculate_technical_indicators (some f)).1 = some (computeIndicators f).1 ∧
    (computeIndicators f).1.timestamp = f.timestamp ∧
    (computeIndicators f).1.«open» = f.«open» ∧
    (computeIndicators f).1.high = f.high ∧
    (computeIndicators f).1.low = f.low ∧
    (computeIndicators f).1.close = f.close ∧
    (computeIndicators f).1.volume = f.volume ∧
    (computeIndicators f).1.rsi = some (rsiColumn f.close) ∧
    (computeIndicators f).1.stoch_k = some (stochKColumn f.close f.low f.high) ∧
    (computeIndicators f).1.macd = some (macdColumn f.close) := by
  refine ⟨?_, rfl, rfl, rfl, rfl, rfl, rfl, rfl, rfl, rfl⟩
  rw [calc_indicators_of_length (by omega)]

/-- Witness for C7's amended theorem at the concrete 20-row frame. -/
theorem indicator_columns_written_into_input_witness :
    20 ≤ constFrame20.close.length ∧
      (computeIndicators constFrame20).1.close = constFrame20.close :=
  ⟨by decide,
    (indicator_columns_written_into_input constFrame20 (by decide)).2.2.2.2.2.1⟩

/-- Claim C4, counterexample: on the concrete 20-candle constant-close
frame the last RSI entry is NaN (`none`), not 50 as the claim states; the
last MACD entry is 0. -/
theorem flat_series_rsi_not_fifty :
    ((computeIndicators constFrame20).1.rsi.getD []).getLast? ≠ some (some 50) ∧
    ((computeIndicators constFrame20).1.rsi.getD []).getLast? = some none ∧
    ((computeIndicators constFrame20).1.macd.getD []).getLast? = some 0 := by
  refine ⟨?_, ?_, ?_⟩ <;> decide

/-- Claim C4, amended: for every frame whose close column is constant with
at least 20 candles, the indicator stage runs (no guard fires), the
computed RSI is NaN — the 0/0 gain/loss ratio is not special-cased to the
neutral sentinel 50 — while MACD is exactly 0; the NaN RSI is then mapped
by the interpretation layer to the neutral verdict (every NaN comparison
is false), so no NaN reaches the scoring stage. -/
theorem flat_series_rsi_nan_macd_zero (f : Frame) (n : ℕ) (c : ℚ)
    (hc : f.close = List.replicate n c) (hn : 20 ≤ n) :
    calculate_technical_indicators (some f) =
      (some (computeIndicators f).1, (computeIndicators f).2) ∧
    ((computeIndicators f).1.rsi.getD []).getLast? = some none ∧
    ((computeIndicators f).1.macd.getD []).getLast? = some 0 ∧
    (computeIndicators f).2.rsi = some (get_rsi_interpretation none) := by
  have hlen : f.close.length = n := by rw [hc]; simp
  have hrsi : (rsiColumn f.close).getLast? = some none := by
    rw [hc]; exact rsiColumn_replicate hn c
  have hmacd : (macdColumn f.close).getLast? = some 0 := by
    rw [hc]; exact macdColumn_replicate (by omega) c
  refine ⟨calc_indicators_of_length (by omega), ?_, ?_, ?_⟩
  · rw [computeIndicators_rsi, Option.getD_some, hrsi]
  · rw [computeIndicators_macd, Option.getD_some, hmacd]
  · rw [computeIndicators_snd]
    unfold generate_indicator_explanations
    rw [if_neg (by rw [computeIndicators_close]; omega)]
    show some (get_rsi_interpretation (lastOpt (computeIndicators f).1.rsi)) = _
    have hl : lastOpt (computeIndicators f).1.rsi = none := by
      rw [computeIndicators_rsi]
      unfold lastOpt
      rw [Option.getD_some, hrsi]
      rfl
    rw [hl]

/-- Witness for C4's amended theorem at the concrete constant frame. -/
theorem flat_series_rsi_nan_macd_zero_witness :
    (constFrame20.close = List.replicate 20 5 ∧ 20 ≤ 20) ∧
      ((computeIndicators constFrame20).1.rsi.getD []).getLast? = some none :=
  ⟨⟨rfl, by norm_num⟩,
    (flat_series_rsi_nan_macd_zero constFrame20 20 5 rfl (by norm_num)).2.1⟩

set_option maxRecDepth 100000 in
/-- Claim C5, counterexample: on the concrete flat frame (all candles
identical OHLC) the last Stochastic %K and %D entries are NaN (`none`), not
the claimed neutral sentinel 50. -/
theorem flat_window_stochastic_not_fifty :
    ((computeIndicators constFrame20).1.stoch_k.getD []).getLast? ≠ some (some 50) ∧
    ((computeIndicators constFrame20).1.stoch_k.getD []).getLast? = some none ∧
    ((computeIndicators constFrame20).1.stoch_d.getD []).getLast? = some none := by
  refine ⟨?_, ?_, ?_⟩ <;> decide

/-- Claim C5, amended: for every frame (at least 20 rows, columns of equal
length) whose last 14 candles have identical high, low and close, the
division of the Stochastic %K is not guarded: the zero range produces
`0/0`, so the last %K and %D entries are NaN (`none`), not 50 — there is no
crash (float division yields NaN, not an error), and the interpretation
layer maps the NaN pair to the neutral-zone verdict. -/
theorem flat_window_stochastic_nan (f : Frame) (v : ℚ)
    (hn : 20 ≤ f.close.length)
    (hlh : f.low.length = f.close.length) (hhh : f.high.length = f.close.length)
    (hc : f.close.drop (f.close.length - 14) = List.replicate 14 v)
    (hl : f.low.drop (f.close.length - 14) = List.replicate 14 v)
    (hh : f.high.drop (f.close.length - 14) = List.replicate 14 v) :
    ((computeIndicators f).1.stoch_k.getD []).getLast? = some none ∧
    ((computeIndicators f).1.stoch_d.getD []).getLast? = some none ∧
    (computeIndicators f).2.stochastic = some (get_stoch_interpretation none none) := by
  have hK : (stochKColumn f.close f.low f.high)[f.close.length - 1]? = some none :=
    stochKColumn_getElem_flat (by omega) hlh hhh hc hl hh
  have hKlast : (stochKColumn f.close f.low f.high).getLast? = some none := by
    rw [List.getLast?_eq_getElem?, stochK_length]
    exact hK
  have hD : (rollingMeanOpt 3 (stochKColumn f.close f.low f.high)).getLast? = some none := by
    refine rollingMeanOpt_last_none ?_ ?_
    · rw [stochK_length]; omega
    · rw [stochK_length]; exact hK
  refine ⟨?_, ?_, ?_⟩
  · rw [computeIndicators_stoch_k, Option.getD_some, hKlast]
  · rw [computeIndicators_stoch_d, Option.getD_some, hD]
  · rw [computeIndicators_snd]
    unfold generate_indicator_explanations
    rw [if_neg (by rw [computeIndicators_close]; omega)]
    show some (get_stoch_interpretation (lastOpt (computeIndicators f).1.stoch_k)
      (lastOpt (computeIndicators f).1.stoch_d)) = _
    have h1 : lastOpt (computeIndicators f).1.stoch_k = none := by
      rw [computeIndicators_stoch_k]
      unfold lastOpt
      rw [Option.getD_some, hKlast]
      rfl
    have h2 : lastOpt (computeIndicators f).1.stoch_d = none := by
      rw [computeIndicators_stoch_d]
      unfold lastOpt
      rw [Option.getD_some, hD]
      rfl
    rw [h1, h2]

/-- Witness for C5's amended theorem at the concrete flat frame. -/
theorem flat_window_stochastic_nan_witness :
    (20 ≤ constFrame20.close.length ∧
      constFrame20.close.drop (constFrame20.close.length - 14) = List.replicate 14 5) ∧
      ((computeIndicators constFrame20).1.stoch_k.getD []).getLast? = some none :=
  ⟨⟨by decide, by decide⟩,
    (flat_window_stochastic_nan constFrame20 5 (by decide) (by decide) (by decide)
      (by decide) (by decide) (by decide)).1⟩

end App
